import Mathlib

/-!
Shallow embedding of the watch-together client core: the adaptive
synchronization controller (`adaptive-sync`) and the popup connection /
session manager (`popup.ts`).  JavaScript numbers are modelled as `ℚ`,
arrays as `List`, and the mutable controller / session objects as explicit
state records threaded through the functions.
-/

namespace WatchTogether

/-- Configuration record of the adaptive sync controller
(interface `AdaptiveSyncConfig`). -/
structure AdaptiveSyncConfig where
  smallDriftThreshold : ℚ
  mediumDriftThreshold : ℚ
  largeDriftThreshold : ℚ
  minPlaybackRate : ℚ
  maxPlaybackRate : ℚ
  correctionFactor : ℚ
  maxLatencyCompensation : ℚ
  minLatencyCompensation : ℚ
deriving DecidableEq

/-- The default configuration `DEFAULT_SYNC_CONFIG`. -/
def DEFAULT_SYNC_CONFIG : AdaptiveSyncConfig :=
  { smallDriftThreshold := 300
    mediumDriftThreshold := 1500
    largeDriftThreshold := 5000
    minPlaybackRate := 0.9
    maxPlaybackRate := 1.1
    correctionFactor := 0.4
    maxLatencyCompensation := 2000
    minLatencyCompensation := 10 }

/-- Tagged union `SyncAction`. -/
inductive SyncAction where
  | none : SyncAction
  | adjust_speed (rate : ℚ) : SyncAction
  | smooth_seek (targetTime : ℚ) (duration : ℚ) : SyncAction
  | hard_seek (targetTime : ℚ) : SyncAction
deriving DecidableEq

/-- Mutable state of an `AdaptiveSyncController`: clock-offset estimation
and latency statistics. -/
structure SyncState where
  clockOffset : ℚ
  clockOffsetSamples : List ℚ
  latencySamples : List ℚ
deriving DecidableEq

/-- Fresh controller state (field initializers of `AdaptiveSyncController`). -/
def initSyncState : SyncState :=
  { clockOffset := 0, clockOffsetSamples := [], latencySamples := [] }

/-- Constant `maxClockSamples`. -/
def maxClockSamples : Nat := 10

/-- Constant `maxLatencySamples`. -/
def maxLatencySamples : Nat := 20

/-- Method `updateClockOffset`: push the sample, drop the oldest beyond
`maxClockSamples`, and set the offset to the median (element at index
`⌊length/2⌋` of the ascending sort). -/
def updateClockOffset (st : SyncState) (sample : ℚ) : SyncState :=
  let samples0 := st.clockOffsetSamples ++ [sample]
  let samples := if samples0.length > maxClockSamples then samples0.drop 1 else samples0
  let sorted := List.insertionSort (· ≤ ·) samples
  { st with clockOffsetSamples := samples,
            clockOffset := sorted.getD (sorted.length / 2) 0 }

/-- Method `recordLatency`: push the sample, drop the oldest beyond
`maxLatencySamples`. -/
def recordLatency (st : SyncState) (latency : ℚ) : SyncState :=
  let samples0 := st.latencySamples ++ [latency]
  { st with latencySamples :=
      if samples0.length > maxLatencySamples then samples0.drop 1 else samples0 }

/-- Method `calculateLatency`, with `Date.now()` passed explicitly as `now`.
Returns the clamped latency together with the updated controller state. -/
def calculateLatency (config : AdaptiveSyncConfig) (st : SyncState)
    (now eventTimestamp : ℚ) : ℚ × SyncState :=
  let rawLatency := now - eventTimestamp
  let st1 :=
    if rawLatency < -100 then updateClockOffset st rawLatency
    else if rawLatency > config.maxLatencyCompensation then
      updateClockOffset st (rawLatency - 200)
    else st
  let adjustedLatency := rawLatency - st1.clockOffset
  let clampedLatency := max 0 (min adjustedLatency config.maxLatencyCompensation)
  (clampedLatency, recordLatency st1 clampedLatency)

/-- Method `compensateForLatency`, with `Date.now()` passed explicitly. -/
def compensateForLatency (config : AdaptiveSyncConfig) (st : SyncState)
    (targetTime eventTimestamp : ℚ) (isPlaying : Bool) (now : ℚ) : ℚ × SyncState :=
  let r := calculateLatency config st now eventTimestamp
  let latency := r.1
  if latency < config.minLatencyCompensation ∨ isPlaying = false then (targetTime, r.2)
  else (targetTime + latency / 1000, r.2)

/-- Method `calculateSyncAction`: pure drift-classification function. -/
def calculateSyncAction (config : AdaptiveSyncConfig)
    (currentTime targetTime : ℚ) (isPlaying : Bool) : SyncAction :=
  let drift := targetTime - currentTime
  let absDrift := |drift| * 1000
  if isPlaying = false ∨ absDrift < 30 then .none
  else if absDrift > config.largeDriftThreshold then .hard_seek targetTime
  else if absDrift > config.mediumDriftThreshold then
    .smooth_seek targetTime (min 400 (absDrift / 4))
  else if absDrift > config.smallDriftThreshold then
    if drift > 0 then
      .adjust_speed (min config.maxPlaybackRate (1 + (absDrift / 1000) * config.correctionFactor))
    else
      .adjust_speed (max config.minPlaybackRate (1 - (absDrift / 1000) * config.correctionFactor))
  else
    if drift > 0 then .adjust_speed (min 1.05 (1 + (absDrift / 1000) * 0.15))
    else .adjust_speed (max 0.95 (1 - (absDrift / 1000) * 0.15))


/-! Shared message vocabulary (`src/shared/events.ts`) and the popup session
state (`src/popup/popup.ts`).  Timers become Boolean flags plus effects,
`Date.now()` becomes an explicit `now : ℚ` argument, and the side effects of
each handler (socket sends, tab notifications, storage writes, scheduled
timers) are collected in an output list. -/

/-- Interface `SyncEvent` from `shared/events.ts` (`etype` embeds the
string-literal union field `type`). -/
structure SyncEvent where
  etype : String
  time : ℚ
  timestamp : ℚ
  videoId : Option String
deriving DecidableEq

/-- Interface `NavigationEvent`. -/
structure NavigationEvent where
  url : String
  platform : String
  timestamp : ℚ
deriving DecidableEq

/-- Interface `UserInfo`. -/
structure UserInfo where
  oderId : String
  name : String
  canControl : Bool
  isHost : Bool
deriving DecidableEq

/-- Union `ClientMessage` (client → relay messages). -/
inductive ClientMessage where
  | CREATE_ROOM (userId : String) (userName : Option String)
  | JOIN_ROOM (roomId userId : String) (userName : Option String)
  | LEAVE_ROOM (roomId userId : String)
  | SYNC_EVENT (roomId userId : String) (event : SyncEvent)
  | NAVIGATE (roomId userId : String) (navigation : NavigationEvent)
  | REQUEST_STATE (roomId userId : String)
  | STATE_RESPONSE (roomId userId : String) (isPlaying : Bool) (currentTime : ℚ)
  | KICK_USER (roomId userId targetUserId : String)
  | SET_PERMISSION (roomId userId targetUserId : String) (canControl : Bool)
  | SET_NAME (userId name : String)
  | GET_USERS (roomId userId : String)
  | HEARTBEAT (userId : String)
  | JOINER_READY (roomId userId : String)
deriving DecidableEq

/-- The `type` discriminator string of a `ClientMessage`. -/
def ClientMessage.mtype : ClientMessage → String
  | .CREATE_ROOM _ _ => "CREATE_ROOM"
  | .JOIN_ROOM _ _ _ => "JOIN_ROOM"
  | .LEAVE_ROOM _ _ => "LEAVE_ROOM"
  | .SYNC_EVENT _ _ _ => "SYNC_EVENT"
  | .NAVIGATE _ _ _ => "NAVIGATE"
  | .REQUEST_STATE _ _ => "REQUEST_STATE"
  | .STATE_RESPONSE _ _ _ _ => "STATE_RESPONSE"
  | .KICK_USER _ _ _ => "KICK_USER"
  | .SET_PERMISSION _ _ _ _ => "SET_PERMISSION"
  | .SET_NAME _ _ => "SET_NAME"
  | .GET_USERS _ _ => "GET_USERS"
  | .HEARTBEAT _ => "HEARTBEAT"
  | .JOINER_READY _ _ => "JOINER_READY"

/-- Union `ServerMessage` (relay → client messages). -/
inductive ServerMessage where
  | ROOM_CREATED (roomId : String) (isHost : Bool) (oderId : String)
  | ROOM_JOINED (roomId : String) (userCount : Nat) (isHost : Bool)
      (users : List UserInfo) (oderId : String)
  | ROOM_LEFT (roomId : String)
  | SYNC_EVENT (roomId oderId : String) (event : SyncEvent)
  | NAVIGATE (roomId oderId : String) (navigation : NavigationEvent)
  | STATE_REQUEST (roomId requesterId : String)
  | STATE_UPDATE (roomId : String) (isPlaying : Bool) (currentTime : ℚ)
  | USER_JOINED (roomId oderId userName : String) (userCount : Nat)
      (users : List UserInfo)
  | USER_LEFT (roomId oderId : String) (userCount : Nat)
      (newHostId : Option String) (users : List UserInfo)
  | USER_KICKED (roomId oderId reason : String)
  | USERS_LIST (roomId : String) (users : List UserInfo)
  | PERMISSION_CHANGED (roomId oderId : String) (canControl : Bool)
  | ERROR (code message : String)
  | HEARTBEAT_ACK
  | JOINER_READY_NOTIFICATION (roomId joinerUserId : String)
deriving DecidableEq

/-- Payloads forwarded to content-script tabs via `forwardToAllTabs`. -/
inductive TabMsg where
  | APPLY_SYNC (payload : SyncEvent)
  | NAVIGATE (payload : NavigationEvent)
  | CONNECTION_STATUS (status : String) (attempt maxAttempts : Option Nat)
      (message : Option String)
  | KICKED (reason : String)
  | ERROR (code message : String)
  | START_PLAYBACK_FOR_JOINER (joinerUserId : Option String)
deriving DecidableEq

/-- Observable side effects of the popup handlers. -/
inductive Effect where
  | Send (message : ClientMessage)
  | ForwardToAllTabs (payload : TabMsg)
  | BroadcastStatus
  | RequestPlayerState
  | SaveSession
  | ClearStoredRoom
  | ScheduleReconnect (delayMs : Nat)
  | StartConnect
deriving DecidableEq

/-- The readyState of `session.socket` (`null`, `CONNECTING`, `OPEN`). -/
inductive SocketSt where
  | noSocket
  | CONNECTING
  | OPEN
deriving DecidableEq

/-- Constant `RECONNECT_DELAY_MS` from `shared/events.ts`. -/
def RECONNECT_DELAY_MS : Nat := 3000

/-- Constant `MAX_RECONNECT_ATTEMPTS` from `shared/events.ts`. -/
def MAX_RECONNECT_ATTEMPTS : Nat := 5

/-- Interface `SessionState` (the global singleton `session`), with
`heartbeatInterval` abstracted to the Boolean `heartbeatOn`. -/
structure SessionState where
  oderId : String
  socket : SocketSt
  roomId : Option String
  isHost : Bool
  userCount : Nat
  users : List UserInfo
  connected : Bool
  reconnectAttempts : Nat
  heartbeatOn : Bool
  userName : String
  canControl : Bool
  isReconnecting : Bool
  lastSuccessfulConnection : ℚ
  pendingMessages : List ClientMessage
  currentUrl : Option String
  currentPlatform : Option String
deriving DecidableEq

/-- Interface `PendingOperation` (the room-operation lock payload). -/
structure PendingOperation where
  type : String
  timestamp : ℚ
  roomId : Option String
deriving DecidableEq

/-- Function `acquireRoomLock`, with `Date.now()` passed as `now`.  Returns
the Boolean result together with the new value of `pendingOperation`. -/
def acquireRoomLock (pendingOperation : Option PendingOperation) (now : ℚ)
    (operation : PendingOperation) : Bool × Option PendingOperation :=
  match pendingOperation with
  | some p =>
      if now - p.timestamp > 5000 then (true, some operation)
      else (false, some p)
  | none => (true, some operation)

/-- Function `releaseRoomLock`: unconditionally clears `pendingOperation`. -/
def releaseRoomLock (_pendingOperation : Option PendingOperation) :
    Option PendingOperation := none

/-- Function `shouldQueueMessage`: HEARTBEAT and STATE_RESPONSE are
time-sensitive and never queued. -/
def shouldQueueMessage (message : ClientMessage) : Bool :=
  if message.mtype = "HEARTBEAT" ∨ message.mtype = "STATE_RESPONSE" then false
  else true

/-- Function `queueMessage`: de-duplicated push, then drop the oldest entry
while the queue holds more than 50 messages. -/
def queueMessage (pendingMessages : List ClientMessage) (message : ClientMessage) :
    List ClientMessage :=
  let isDuplicate := pendingMessages.any
    (fun m => decide (m.mtype = message.mtype ∧ m = message))
  let q := if isDuplicate then pendingMessages else pendingMessages ++ [message]
  if q.length > 50 then q.drop 1 else q

/-- Guard of `connect()`: a new socket is opened only when none is open or
connecting; the asynchronous part is the `StartConnect` effect. -/
def connectStep (st : SessionState) : SessionState × List Effect :=
  if st.socket = SocketSt.OPEN ∨ st.socket = SocketSt.CONNECTING then (st, [])
  else ({ st with socket := SocketSt.CONNECTING }, [Effect.StartConnect])

/-- Function `sendMessage`.  `sendOk` models whether `socket.send` throws. -/
def sendMessage (st : SessionState) (message : ClientMessage) (sendOk : Bool) :
    SessionState × List Effect :=
  if st.socket = SocketSt.OPEN then
    if sendOk then (st, [Effect.Send message])
    else if st.isReconnecting && shouldQueueMessage message then
      ({ st with pendingMessages := queueMessage st.pendingMessages message }, [])
    else (st, [])
  else
    if st.isReconnecting && shouldQueueMessage message then
      ({ st with pendingMessages := queueMessage st.pendingMessages message }, [])
    else if st.connected = false && st.isReconnecting = false then
      let c := connectStep st
      if shouldQueueMessage message then
        ({ c.1 with pendingMessages := queueMessage c.1.pendingMessages message }, c.2)
      else (c.1, c.2)
    else (st, [])

/-- Function `flushPendingMessages`: empty the queue and re-send each queued
message in FIFO order. -/
def flushPendingMessages (st : SessionState) : SessionState × List Effect :=
  if st.pendingMessages = [] then (st, [])
  else
    let messages := st.pendingMessages
    let st1 := { st with pendingMessages := [] }
    messages.foldl
      (fun acc m =>
        let r := sendMessage acc.1 m true
        (r.1, acc.2 ++ r.2))
      (st1, ([] : List Effect))

/-- Handler `socket.onopen` inside `connect()`. -/
def onOpen (st : SessionState) (now : ℚ) : SessionState × List Effect :=
  let st1 := { st with socket := SocketSt.OPEN, connected := true,
                       reconnectAttempts := 0, isReconnecting := false,
                       lastSuccessfulConnection := now }
  let f := flushPendingMessages st1
  let r :=
    match f.1.roomId, f.1.isReconnecting with
    | some roomId, true =>
        let r2 := sendMessage f.1
          (ClientMessage.JOIN_ROOM roomId f.1.oderId (some f.1.userName)) true
        (r2.1, f.2 ++ r2.2)
    | _, _ => (f.1, f.2)
  ({ r.1 with heartbeatOn := true }, r.2 ++ [Effect.BroadcastStatus])

/-- Handler `socket.onclose` inside `connect()`. -/
def onClose (st : SessionState) (code : Nat) : SessionState × List Effect :=
  let st1 := { st with connected := false, socket := SocketSt.noSocket,
                       heartbeatOn := false }
  if code = 1000 ∨ st1.roomId = none then (st1, [Effect.BroadcastStatus])
  else if st1.reconnectAttempts < MAX_RECONNECT_ATTEMPTS then
    let st2 := { st1 with reconnectAttempts := st1.reconnectAttempts + 1,
                          isReconnecting := true }
    let delay := min (RECONNECT_DELAY_MS * 2 ^ (st2.reconnectAttempts - 1)) 30000
    (st2, [Effect.BroadcastStatus,
           Effect.ForwardToAllTabs (TabMsg.CONNECTION_STATUS "reconnecting"
             (some st2.reconnectAttempts) (some MAX_RECONNECT_ATTEMPTS) none),
           Effect.ScheduleReconnect delay])
  else
    let st2 := { st1 with isReconnecting := false, roomId := none, isHost := false,
                          userCount := 0, users := [] }
    (st2, [Effect.BroadcastStatus,
           Effect.ForwardToAllTabs (TabMsg.CONNECTION_STATUS "failed" none none
             (some "Could not reconnect to server. Please reload the page.")),
           Effect.BroadcastStatus])

/-- Combined popup state: the session singleton plus the module-level
`pendingOperation` lock variable. -/
structure PopupState where
  session : SessionState
  pendingOperation : Option PendingOperation
deriving DecidableEq

/-- Function `handleServerMessage`, with `Date.now()` passed as `now`. -/
def handleServerMessage (st : PopupState) (message : ServerMessage) (now : ℚ) :
    PopupState × List Effect :=
  match message with
  | .ROOM_CREATED roomId isHost oderId =>
      let s := st.session
      let s1 := { s with oderId := oderId, roomId := some roomId, isHost := isHost,
                         userCount := 1,
                         users := [{ oderId := oderId,
                                     name := if s.userName = "" then "You" else s.userName,
                                     canControl := true, isHost := true }] }
      ({ st with session := s1, pendingOperation := releaseRoomLock st.pendingOperation },
       [Effect.SaveSession, Effect.BroadcastStatus])
  | .ROOM_JOINED roomId userCount isHost users oderId =>
      let s := st.session
      let s1 := { s with oderId := oderId, roomId := some roomId, isHost := isHost,
                         userCount := userCount, users := users }
      let s2 :=
        match users.find? (fun u => u.oderId == oderId) with
        | some myUser => { s1 with canControl := myUser.canControl }
        | none => s1
      ({ st with session := s2, pendingOperation := releaseRoomLock st.pendingOperation },
       [Effect.SaveSession, Effect.BroadcastStatus])
  | .ROOM_LEFT _ =>
      let s1 := { st.session with roomId := none, isHost := false, userCount := 0,
                                  users := [] }
      ({ st with session := s1, pendingOperation := releaseRoomLock st.pendingOperation },
       [Effect.ClearStoredRoom, Effect.BroadcastStatus])
  | .SYNC_EVENT _ oderId event =>
      if oderId = st.session.oderId then (st, [])
      else (st, [Effect.ForwardToAllTabs (TabMsg.APPLY_SYNC event)])
  | .NAVIGATE _ oderId navigation =>
      if oderId = st.session.oderId then (st, [])
      else
        let s1 := { st.session with currentUrl := some navigation.url,
                                    currentPlatform := some navigation.platform }
        ({ st with session := s1 }, [Effect.ForwardToAllTabs (TabMsg.NAVIGATE navigation)])
  | .STATE_REQUEST _ _ => (st, [Effect.RequestPlayerState])
  | .STATE_UPDATE _ isPlaying currentTime =>
      (st, [Effect.ForwardToAllTabs (TabMsg.APPLY_SYNC
        { etype := if isPlaying then "PLAY" else "PAUSE", time := currentTime,
          timestamp := now, videoId := none })])
  | .USER_JOINED _ _ _ userCount users =>
      let s1 := { st.session with userCount := userCount, users := users }
      ({ st with session := s1 },
       if s1.isHost then [Effect.BroadcastStatus, Effect.RequestPlayerState]
       else [Effect.BroadcastStatus])
  | .USER_LEFT _ _ userCount newHostId users =>
      let s1 := { st.session with userCount := userCount, users := users }
      let s2 := if newHostId = some s1.oderId then { s1 with isHost := true } else s1
      ({ st with session := s2 }, [Effect.BroadcastStatus])
  | .USER_KICKED _ oderId reason =>
      if oderId = st.session.oderId then
        let s1 := { st.session with roomId := none, isHost := false, userCount := 0,
                                    users := [] }
        ({ st with session := s1 },
         [Effect.BroadcastStatus, Effect.ForwardToAllTabs (TabMsg.KICKED reason)])
      else (st, [])
  | .USERS_LIST _ users =>
      let s1 := { st.session with users := users }
      let s2 :=
        match users.find? (fun u => u.oderId == st.session.oderId) with
        | some me => { s1 with canControl := me.canControl, isHost := me.isHost }
        | none => s1
      ({ st with session := s2 }, [Effect.BroadcastStatus])
  | .PERMISSION_CHANGED _ oderId canControl =>
      let s1 := if oderId = st.session.oderId then
                  { st.session with canControl := canControl }
                else st.session
      ({ st with session := s1 }, [Effect.BroadcastStatus])
  | .ERROR code msg =>
      let st1 := { st with pendingOperation := releaseRoomLock st.pendingOperation }
      if code = "ROOM_NOT_FOUND" ∨ "does not exist".toList <:+: msg.toList then
        let s1 := { st1.session with roomId := none, isHost := false, userCount := 0,
                                     users := [] }
        ({ st1 with session := s1 },
         [Effect.BroadcastStatus, Effect.ForwardToAllTabs (TabMsg.ERROR code msg)])
      else (st1, [Effect.ForwardToAllTabs (TabMsg.ERROR code msg)])
  | .HEARTBEAT_ACK => (st, [])
  | .JOINER_READY_NOTIFICATION _ joinerUserId =>
      (st, [Effect.ForwardToAllTabs (TabMsg.START_PLAYBACK_FOR_JOINER (some joinerUserId))])


/-! Concrete states and trace helpers used by the closed theorems. -/

/-- Concrete session used by the closed reconnect theorems: in room
"ROOMCODE", reconnect in progress, empty outbound queue. -/
def reconnSession : SessionState :=
  { oderId := "user_aaaa", socket := SocketSt.noSocket, roomId := some "ROOMCODE",
    isHost := false, userCount := 2,
    users := [{ oderId := "user_aaaa", name := "alice", canControl := true, isHost := false },
              { oderId := "user_bbbb", name := "bob", canControl := true, isHost := true }],
    connected := false, reconnectAttempts := 2, heartbeatOn := false,
    userName := "alice", canControl := true, isReconnecting := true,
    lastSuccessfulConnection := 0, pendingMessages := [], currentUrl := none,
    currentPlatform := none }

/-- Concrete session for the reconnect-exhaustion trace: in a room, zero
reconnect attempts so far. -/
def closeSession : SessionState :=
  { reconnSession with reconnectAttempts := 0, isReconnecting := false }

/-- Concrete popup state for the message-router theorems. -/
def popupSt : PopupState := { session := reconnSession, pendingOperation := none }

/-- Delays of all ScheduleReconnect effects in a list. -/
def scheduledDelays (effs : List Effect) : List Nat :=
  effs.filterMap (fun e =>
    match e with
    | Effect.ScheduleReconnect d => some d
    | _ => none)

/-- Number of permanent-failure notifications in a list of effects. -/
def countFailed (effs : List Effect) : Nat :=
  effs.countP (fun e =>
    match e with
    | Effect.ForwardToAllTabs (TabMsg.CONNECTION_STATUS s _ _ _) => s == "failed"
    | _ => false)

/-- Iterate `onClose` with abnormal close code 1006, accumulating effects. -/
def closeTrace (st : SessionState) : Nat → SessionState × List Effect
  | 0 => (st, [])
  | n + 1 =>
      let p := closeTrace st n
      let q := onClose p.1 1006
      (q.1, p.2 ++ q.2)

/-! Helper lemmas. -/

/-- Unfolding of `calculateSyncAction` at the default configuration with
`isPlaying = true`, with the decimal constants written as plain rationals. -/
lemma calcSyncAction_default_eq (c t : ℚ) :
    calculateSyncAction DEFAULT_SYNC_CONFIG c t true =
      (if |t - c| * 1000 < 30 then SyncAction.none
       else if 5000 < |t - c| * 1000 then SyncAction.hard_seek t
       else if 1500 < |t - c| * 1000 then
         SyncAction.smooth_seek t (min 400 (|t - c| * 1000 / 4))
       else if 300 < |t - c| * 1000 then
         (if c < t then SyncAction.adjust_speed (min (11/10) (1 + |t - c| * (2/5)))
          else SyncAction.adjust_speed (max (9/10) (1 - |t - c| * (2/5))))
       else
         (if c < t then SyncAction.adjust_speed (min (21/20) (1 + |t - c| * (3/20)))
          else SyncAction.adjust_speed (max (19/20) (1 - |t - c| * (3/20))))) := by
  simp only [calculateSyncAction, DEFAULT_SYNC_CONFIG]
  norm_num

/-- Opening a socket from `connect()` never touches the pending queue. -/
lemma connectStep_pendingMessages (st : SessionState) :
    (connectStep st).1.pendingMessages = st.pendingMessages := by
  simp only [connectStep]
  split_ifs <;> rfl

/-! Claim theorems. -/

/-- C1, counterexample to the claim as stated.  At drift exactly 1500 ms
(currentTime 0, targetTime 1.5 s) the claim requires `smooth_seek`, but
`calculateSyncAction` uses a strict comparison and returns
`adjust_speed 1.1`; at drift exactly 5000 ms the claim requires
`hard_seek`, but the code returns `smooth_seek` with duration 400 ms. -/
theorem C1_counterexample :
    |(3/2 : ℚ) - 0| * 1000 = 1500 ∧
    calculateSyncAction DEFAULT_SYNC_CONFIG 0 (3/2) true
      = SyncAction.adjust_speed (11/10) ∧
    |(5 : ℚ) - 0| * 1000 = 5000 ∧
    calculateSyncAction DEFAULT_SYNC_CONFIG 0 5 true = SyncAction.smooth_seek 5 400 := by
  refine ⟨by norm_num [abs_of_pos], ?_, by norm_num [abs_of_pos], ?_⟩ <;>
    norm_num [calculateSyncAction, DEFAULT_SYNC_CONFIG, abs_of_pos, abs_of_nonneg]

/-- C1 (amended): drift classification of `calculateSyncAction` under the
default configuration with playing = true, for drift `d = |target − current| ·
1000` ms: `d < 30` gives none; `30 ≤ d < 300` gives adjust_speed with
`|rate − 1| ≤ 0.05`; `300 ≤ d ≤ 1500` gives adjust_speed with rate in
`[0.9, 1.1]`; `1500 < d ≤ 5000` gives smooth_seek with duration ≤ 400 ms;
`d > 5000` gives hard_seek; and every returned adjust_speed rate has
`rate − 1` of the same sign as `target − current`. -/
theorem C1_theorem (c t : ℚ) :
    (|t - c| * 1000 < 30 →
      calculateSyncAction DEFAULT_SYNC_CONFIG c t true = SyncAction.none) ∧
    (30 ≤ |t - c| * 1000 → |t - c| * 1000 < 300 →
      ∃ r, calculateSyncAction DEFAULT_SYNC_CONFIG c t true = SyncAction.adjust_speed r ∧
        |r - 1| ≤ 1/20) ∧
    (300 ≤ |t - c| * 1000 → |t - c| * 1000 ≤ 1500 →
      ∃ r, calculateSyncAction DEFAULT_SYNC_CONFIG c t true = SyncAction.adjust_speed r ∧
        9/10 ≤ r ∧ r ≤ 11/10) ∧
    (1500 < |t - c| * 1000 → |t - c| * 1000 ≤ 5000 →
      ∃ dur, calculateSyncAction DEFAULT_SYNC_CONFIG c t true
          = SyncAction.smooth_seek t dur ∧
        dur ≤ 400) ∧
    (5000 < |t - c| * 1000 →
      calculateSyncAction DEFAULT_SYNC_CONFIG c t true = SyncAction.hard_seek t) ∧
    (∀ r, calculateSyncAction DEFAULT_SYNC_CONFIG c t true = SyncAction.adjust_speed r →
      (c < t → 1 < r) ∧ (t < c → r < 1)) := by
  have habs : (0:ℚ) ≤ |t - c| := abs_nonneg _
  rw [calcSyncAction_default_eq]
  refine ⟨?_, ?_, ?_, ?_, ?_, ?_⟩
  · intro h
    rw [if_pos h]
  · intro h30 h300
    rw [if_neg (not_lt.mpr h30), if_neg (not_lt.mpr (by linarith)),
        if_neg (not_lt.mpr (by linarith)), if_neg (not_lt.mpr (by linarith))]
    by_cases hpos : c < t
    · rw [if_pos hpos]
      refine ⟨_, rfl, ?_⟩
      have h1 : (1:ℚ) ≤ min (21/20) (1 + |t - c| * (3/20)) :=
        le_min (by norm_num) (by nlinarith)
      have h2 : min ((21:ℚ)/20) (1 + |t - c| * (3/20)) ≤ 21/20 := min_le_left _ _
      rw [abs_le]
      constructor <;> linarith
    · rw [if_neg hpos]
      refine ⟨_, rfl, ?_⟩
      have h1 : max ((19:ℚ)/20) (1 - |t - c| * (3/20)) ≤ 1 :=
        max_le (by norm_num) (by nlinarith)
      have h2 : ((19:ℚ)/20) ≤ max ((19:ℚ)/20) (1 - |t - c| * (3/20)) := le_max_left _ _
      rw [abs_le]
      constructor <;> linarith
  · intro h300 h1500
    rw [if_neg (not_lt.mpr (by linarith)), if_neg (not_lt.mpr (by linarith)),
        if_neg (not_lt.mpr (by linarith))]
    by_cases hmid : (300:ℚ) < |t - c| * 1000
    · rw [if_pos hmid]
      by_cases hpos : c < t
      · rw [if_pos hpos]
        exact ⟨_, rfl, le_min (by norm_num) (by nlinarith), min_le_left _ _⟩
      · rw [if_neg hpos]
        exact ⟨_, rfl, le_max_left _ _, max_le (by norm_num) (by nlinarith)⟩
    · rw [if_neg hmid]
      by_cases hpos : c < t
      · rw [if_pos hpos]
        exact ⟨_, rfl, le_min (by norm_num) (by nlinarith),
          le_trans (min_le_left _ _) (by norm_num)⟩
      · rw [if_neg hpos]
        exact ⟨_, rfl, le_trans (by norm_num) (le_max_left _ _),
          max_le (by norm_num) (by nlinarith)⟩
  · intro h1500 h5000
    rw [if_neg (not_lt.mpr (by linarith)), if_neg (not_lt.mpr h5000), if_pos h1500]
    exact ⟨_, rfl, min_le_left _ _⟩
  · intro h5000
    rw [if_neg (not_lt.mpr (by linarith)), if_pos h5000]
  · intro r hr
    constructor
    · intro hct
      have hpos : (0:ℚ) < t - c := by linarith
      have habspos : |t - c| = t - c := abs_of_pos hpos
      split_ifs at hr with h30 h5000 h1500 h300
      all_goals first
      | exact SyncAction.noConfusion hr
      | (injection hr with h
         subst h
         exact lt_min (by norm_num) (by nlinarith))
    · intro htc
      have hneg : t - c < 0 := by linarith
      have habsneg : |t - c| = -(t - c) := abs_of_neg hneg
      have hct : ¬(c < t) := by linarith
      split_ifs at hr with h30 h5000 h1500 h300
      all_goals first
      | exact SyncAction.noConfusion hr
      | (injection hr with h
         subst h
         have hgt : (0:ℚ) < |t - c| := by linarith
         exact max_lt (by norm_num) (by nlinarith))

/-- Witness for C1_theorem at currentTime 0, targetTime 1 (drift 1000 ms). -/
theorem C1_witness :
    ∃ r, calculateSyncAction DEFAULT_SYNC_CONFIG 0 1 true = SyncAction.adjust_speed r ∧
      9/10 ≤ r ∧ r ≤ 11/10 :=
  (C1_theorem 0 1).2.2.1 (by norm_num [abs_of_pos]) (by norm_num [abs_of_pos])

/-- C2: on the open event after an unintentional disconnect with the room id
still set (state `reconnSession`, a reconnect in flight), the handler resets
the attempt counter, records the success timestamp, starts the heartbeat and
clears the reconnect flag — but the only emitted effect is the status
broadcast: no JOIN_ROOM re-issue is ever sent, because the handler clears
`isReconnecting` before testing it. -/
theorem C2_theorem :
    (onOpen reconnSession 5000000).1.reconnectAttempts = 0 ∧
    (onOpen reconnSession 5000000).1.lastSuccessfulConnection = 5000000 ∧
    (onOpen reconnSession 5000000).1.heartbeatOn = true ∧
    (onOpen reconnSession 5000000).1.isReconnecting = false ∧
    (onOpen reconnSession 5000000).1.roomId = some "ROOMCODE" ∧
    (onOpen reconnSession 5000000).2 = [Effect.BroadcastStatus] :=
  ⟨rfl, rfl, rfl, rfl, rfl, rfl⟩

/-- C3: with an empty clock-offset window (offset 0), for any latency L with
10 ≤ L ≤ 2000 ms and playing = true, `compensateForLatency` returns exactly
`t + L/1000`; and with playing = false it returns the target time unchanged
for every timestamp and every controller state. -/
theorem C3_theorem :
    (∀ (st : SyncState) (t now L : ℚ), st.clockOffset = 0 → 10 ≤ L → L ≤ 2000 →
      (compensateForLatency DEFAULT_SYNC_CONFIG st t (now - L) true now).1
        = t + L / 1000) ∧
    (∀ (st : SyncState) (t ts now : ℚ),
      (compensateForLatency DEFAULT_SYNC_CONFIG st t ts false now).1 = t) := by
  have hmaxc : DEFAULT_SYNC_CONFIG.maxLatencyCompensation = 2000 := rfl
  have hminc : DEFAULT_SYNC_CONFIG.minLatencyCompensation = 10 := rfl
  constructor
  · intro st t now L hoff h10 h2000
    have hraw : now - (now - L) = L := by ring
    simp only [compensateForLatency, calculateLatency, hraw, hmaxc, hminc]
    rw [if_neg (not_lt.mpr (by linarith : (-100:ℚ) ≤ L))]
    rw [if_neg (not_lt.mpr h2000)]
    rw [hoff, sub_zero, min_eq_left h2000, max_eq_right (by linarith : (0:ℚ) ≤ L)]
    rw [if_neg (by rw [not_or]; exact ⟨not_lt.mpr h10, by simp⟩)]
  · intro st t ts now
    simp only [compensateForLatency, or_true, if_true]

/-- Witness for C3_theorem at target 7 s, latency 500 ms, now = 100000. -/
theorem C3_witness :
    (compensateForLatency DEFAULT_SYNC_CONFIG initSyncState 7 (100000 - 500) true 100000).1
      = 7 + 500 / 1000 :=
  C3_theorem.1 initSyncState 7 100000 500 rfl (by norm_num) (by norm_num)

/-- C4: a non-clean close with a room id set and fewer than 5 attempts used
schedules a reconnect after `min(3000·2^attempt, 30000)` ms and emits no
permanent-failure status; with the attempts exhausted it clears the room
fields and emits the failure status exactly once and schedules nothing; a
clean close (code 1000) or no room id schedules nothing; and the concrete
8-close trace from a fresh in-room session schedules exactly the delays
3 s, 6 s, 12 s, 24 s, 30 s and emits exactly one failure status. -/
theorem C4_theorem :
    (∀ (st : SessionState) (code : Nat) (r : String), st.roomId = some r →
      code ≠ 1000 → st.reconnectAttempts < 5 →
      (onClose st code).1.reconnectAttempts = st.reconnectAttempts + 1 ∧
      scheduledDelays (onClose st code).2
        = [min (3000 * 2 ^ st.reconnectAttempts) 30000] ∧
      countFailed (onClose st code).2 = 0) ∧
    (∀ (st : SessionState) (code : Nat) (r : String), st.roomId = some r →
      code ≠ 1000 → 5 ≤ st.reconnectAttempts →
      (onClose st code).1.roomId = none ∧ (onClose st code).1.isHost = false ∧
      (onClose st code).1.userCount = 0 ∧ (onClose st code).1.users = [] ∧
      countFailed (onClose st code).2 = 1 ∧ scheduledDelays (onClose st code).2 = []) ∧
    (∀ (st : SessionState) (code : Nat), code = 1000 ∨ st.roomId = none →
      scheduledDelays (onClose st code).2 = [] ∧ countFailed (onClose st code).2 = 0) ∧
    (scheduledDelays (closeTrace closeSession 8).2 = [3000, 6000, 12000, 24000, 30000] ∧
     countFailed (closeTrace closeSession 8).2 = 1) := by
  refine ⟨?_, ?_, ?_, ?_⟩
  · intro st code r hroom hcode hlt
    simp only [onClose]
    split_ifs with h1 h2
    · exfalso
      rcases h1 with h | h
      · exact hcode h
      · rw [hroom] at h
        exact Option.noConfusion h
    · exact ⟨rfl, rfl, rfl⟩
    · exact absurd hlt h2
  · intro st code r hroom hcode hge
    simp only [onClose]
    split_ifs with h1 h2
    · exfalso
      rcases h1 with h | h
      · exact hcode h
      · rw [hroom] at h
        exact Option.noConfusion h
    · exact absurd h2 (not_lt.mpr hge)
    · exact ⟨rfl, rfl, rfl, rfl, rfl, rfl⟩
  · intro st code h
    simp only [onClose]
    rw [if_pos h]
    exact ⟨rfl, rfl⟩
  · exact ⟨rfl, by decide⟩

/-- Witness for C4_theorem: first abnormal close from the fresh session. -/
theorem C4_witness :
    (onClose closeSession 1006).1.reconnectAttempts
      = closeSession.reconnectAttempts + 1 ∧
    scheduledDelays (onClose closeSession 1006).2
      = [min (3000 * 2 ^ closeSession.reconnectAttempts) 30000] ∧
    countFailed (onClose closeSession 1006).2 = 0 :=
  C4_theorem.1 closeSession 1006 "ROOMCODE" rfl (by decide) (by decide)

/-- C5: `acquireRoomLock` fails and keeps the held lock while its age is at
most 5000 ms, installs the new operation when the held lock is older than
5000 ms or no lock is held, and `releaseRoomLock` clears unconditionally and
is idempotent. -/
theorem C5_theorem (p : PendingOperation) (now : ℚ) (op : PendingOperation) :
    (now - p.timestamp ≤ 5000 → acquireRoomLock (some p) now op = (false, some p)) ∧
    (5000 < now - p.timestamp → acquireRoomLock (some p) now op = (true, some op)) ∧
    (acquireRoomLock none now op = (true, some op)) ∧
    (∀ s : Option PendingOperation, releaseRoomLock s = none) ∧
    (∀ s : Option PendingOperation,
      releaseRoomLock (releaseRoomLock s) = releaseRoomLock s) := by
  refine ⟨?_, ?_, rfl, fun s => rfl, fun s => rfl⟩
  · intro h
    simp only [acquireRoomLock]
    rw [if_neg (not_lt.mpr h)]
  · intro h
    simp only [acquireRoomLock]
    rw [if_pos h]

/-- Witness for C5_theorem: a fresh lock (age 2000 ms) blocks, a stale lock
(age well past 5000 ms) is silently replaced. -/
theorem C5_witness :
    acquireRoomLock (some ⟨"JOIN_ROOM", 1000, some "ROOMCODE"⟩) 3000
        ⟨"CREATE_ROOM", 3000, none⟩
      = (false, some ⟨"JOIN_ROOM", 1000, some "ROOMCODE"⟩) ∧
    acquireRoomLock (some ⟨"JOIN_ROOM", 1000, some "ROOMCODE"⟩) 99999
        ⟨"CREATE_ROOM", 99999, none⟩
      = (true, some ⟨"CREATE_ROOM", 99999, none⟩) :=
  ⟨( C5_theorem ⟨"JOIN_ROOM", 1000, some "ROOMCODE"⟩ 3000 ⟨"CREATE_ROOM", 3000, none⟩).1
      (by norm_num),
   ( C5_theorem ⟨"JOIN_ROOM", 1000, some "ROOMCODE"⟩ 99999
      ⟨"CREATE_ROOM", 99999, none⟩).2.1 (by norm_num)⟩

/-- C6: `sendMessage` never queues HEARTBEAT or STATE_RESPONSE messages on
any path; a `queueMessage` call on a queue within the capacity of 50 keeps
it within 50; on a full queue a fresh message drops the oldest entry; and a
message JSON-identical to a queued one is never added a second time. -/
theorem C6_theorem :
    (∀ (st : SessionState) (m : ClientMessage) (ok : Bool),
      m.mtype = "HEARTBEAT" ∨ m.mtype = "STATE_RESPONSE" →
      (sendMessage st m ok).1.pendingMessages = st.pendingMessages) ∧
    (∀ (q : List ClientMessage) (m : ClientMessage),
      q.length ≤ 50 → (queueMessage q m).length ≤ 50) ∧
    (∀ (q : List ClientMessage) (m : ClientMessage),
      q.length = 50 → m ∉ q → queueMessage q m = q.drop 1 ++ [m]) ∧
    (∀ (q : List ClientMessage) (m : ClientMessage),
      m ∈ q → queueMessage q m = if q.length > 50 then q.drop 1 else q) := by
  refine ⟨?_, ?_, ?_, ?_⟩
  · intro st m ok h
    have hsq : shouldQueueMessage m = false := by
      rcases h with h | h <;> simp [shouldQueueMessage, h]
    simp only [sendMessage, hsq, Bool.and_false, if_false, Bool.false_eq_true]
    split_ifs <;> first
      | rfl
      | exact connectStep_pendingMessages st
  · intro q m h
    simp only [queueMessage]
    split_ifs with h1 h2 h2 <;>
      simp_all [List.length_drop, List.length_append]
    all_goals omega
  · intro q m hlen hnotin
    have hdup : q.any (fun x => decide (x.mtype = m.mtype ∧ x = m)) = false := by
      rw [List.any_eq_false]
      intro x hx
      simp only [decide_eq_true_eq, not_and]
      intro _ hxm
      exact hnotin (hxm ▸ hx)
    simp only [queueMessage, hdup, Bool.false_eq_true, if_false]
    rw [if_pos (by simp [List.length_append, hlen])]
    rw [List.drop_append_of_le_length (by rw [hlen]; norm_num)]
  · intro q m hmem
    have hdup : q.any (fun x => decide (x.mtype = m.mtype ∧ x = m)) = true := by
      rw [List.any_eq_true]
      exact ⟨m, hmem, by simp⟩
    simp only [queueMessage, hdup, if_true]

/-- Witness for C6_theorem: a HEARTBEAT is not queued, the empty queue stays
within capacity, and re-queueing an already-queued LEAVE_ROOM is a no-op. -/
theorem C6_witness :
    (sendMessage reconnSession (ClientMessage.HEARTBEAT "user_aaaa") true).1.pendingMessages
      = reconnSession.pendingMessages ∧
    (queueMessage [] (ClientMessage.HEARTBEAT "user_aaaa")).length ≤ 50 ∧
    queueMessage [ClientMessage.LEAVE_ROOM "ROOMCODE" "user_aaaa"]
        (ClientMessage.LEAVE_ROOM "ROOMCODE" "user_aaaa")
      = (if ([ClientMessage.LEAVE_ROOM "ROOMCODE" "user_aaaa"] :
            List ClientMessage).length > 50
         then ([ClientMessage.LEAVE_ROOM "ROOMCODE" "user_aaaa"] :
            List ClientMessage).drop 1
         else [ClientMessage.LEAVE_ROOM "ROOMCODE" "user_aaaa"]) :=
  ⟨C6_theorem.1 reconnSession (ClientMessage.HEARTBEAT "user_aaaa") true (Or.inl rfl),
   C6_theorem.2.1 [] (ClientMessage.HEARTBEAT "user_aaaa") (by decide),
   C6_theorem.2.2.2 [ClientMessage.LEAVE_ROOM "ROOMCODE" "user_aaaa"]
     (ClientMessage.LEAVE_ROOM "ROOMCODE" "user_aaaa") (by decide)⟩

/-- C7, counterexample to the claim as stated.  On USER_LEFT the handler
takes `isHost` from the separately signaled `newHostId` field: with the
local id "user_aaaa" named as new host while the replaced member list still
records `isHost := false` for it, the session ends with `isHost = true`
rather than the list-derived value; and on PERMISSION_CHANGED the member
list is not replaced at all (the message carries no users array). -/
theorem C7_counterexample :
    ((handleServerMessage popupSt (ServerMessage.USER_LEFT "ROOMCODE" "user_bbbb" 1
        (some "user_aaaa") [⟨"user_aaaa", "alice", true, false⟩]) 0).1.session.isHost
      = true ∧
     (([⟨"user_aaaa", "alice", true, false⟩] : List UserInfo).find?
        (fun u => u.oderId == "user_aaaa")) = some ⟨"user_aaaa", "alice", true, false⟩) ∧
    (handleServerMessage popupSt (ServerMessage.PERMISSION_CHANGED "ROOMCODE"
        "user_aaaa" false) 0).1.session.users = popupSt.session.users :=
  ⟨⟨rfl, rfl⟩, rfl⟩

/-- C7 (amended): USER_JOINED, USER_LEFT and USERS_LIST replace the member
list wholesale with the message's users array, but only USERS_LIST
re-derives the local `isHost`/`canControl` flags from the local entry of
that list; USER_LEFT sets `isHost` from the signaled `newHostId` field
(leaving `canControl` untouched), USER_JOINED leaves both flags untouched,
and PERMISSION_CHANGED leaves the member list untouched and sets
`canControl` directly from the message's flag when addressed locally. -/
theorem C7_theorem (st : PopupState) (now : ℚ) :
    (∀ (r o un : String) (uc : Nat) (us : List UserInfo),
      (handleServerMessage st (ServerMessage.USER_JOINED r o un uc us) now).1.session.users
        = us ∧
      (handleServerMessage st (ServerMessage.USER_JOINED r o un uc us) now).1.session.isHost
        = st.session.isHost ∧
      (handleServerMessage st
          (ServerMessage.USER_JOINED r o un uc us) now).1.session.canControl
        = st.session.canControl) ∧
    (∀ (r o : String) (uc : Nat) (nh : Option String) (us : List UserInfo),
      (handleServerMessage st (ServerMessage.USER_LEFT r o uc nh us) now).1.session.users
        = us ∧
      (handleServerMessage st (ServerMessage.USER_LEFT r o uc nh us) now).1.session.isHost
        = (if nh = some st.session.oderId then true else st.session.isHost) ∧
      (handleServerMessage st
          (ServerMessage.USER_LEFT r o uc nh us) now).1.session.canControl
        = st.session.canControl) ∧
    (∀ (r : String) (us : List UserInfo) (me : UserInfo),
      us.find? (fun u => u.oderId == st.session.oderId) = some me →
      (handleServerMessage st (ServerMessage.USERS_LIST r us) now).1.session.users = us ∧
      (handleServerMessage st (ServerMessage.USERS_LIST r us) now).1.session.canControl
        = me.canControl ∧
      (handleServerMessage st (ServerMessage.USERS_LIST r us) now).1.session.isHost
        = me.isHost) ∧
    (∀ (r o : String) (cc : Bool),
      (handleServerMessage st (ServerMessage.PERMISSION_CHANGED r o cc) now).1.session.users
        = st.session.users ∧
      (handleServerMessage st
          (ServerMessage.PERMISSION_CHANGED r o cc) now).1.session.canControl
        = (if o = st.session.oderId then cc else st.session.canControl)) := by
  refine ⟨?_, ?_, ?_, ?_⟩
  · intro r o un uc us
    exact ⟨rfl, rfl, rfl⟩
  · intro r o uc nh us
    simp only [handleServerMessage]
    split_ifs with h <;> exact ⟨rfl, rfl, rfl⟩
  · intro r us me h
    simp only [handleServerMessage]
    rw [h]
    exact ⟨rfl, rfl, rfl⟩
  · intro r o cc
    simp only [handleServerMessage]
    split_ifs with h <;> exact ⟨rfl, rfl⟩

/-- Witness for C7_theorem: a USERS_LIST whose local entry revokes control
and grants host updates both flags from the replaced list. -/
theorem C7_witness :
    (handleServerMessage popupSt (ServerMessage.USERS_LIST "ROOMCODE"
        [⟨"user_aaaa", "alice", false, true⟩]) 0).1.session.users
      = [⟨"user_aaaa", "alice", false, true⟩] ∧
    (handleServerMessage popupSt (ServerMessage.USERS_LIST "ROOMCODE"
        [⟨"user_aaaa", "alice", false, true⟩]) 0).1.session.canControl = false ∧
    (handleServerMessage popupSt (ServerMessage.USERS_LIST "ROOMCODE"
        [⟨"user_aaaa", "alice", false, true⟩]) 0).1.session.isHost = true :=
  (C7_theorem popupSt 0).2.2.1 "ROOMCODE" [⟨"user_aaaa", "alice", false, true⟩]
    ⟨"user_aaaa", "alice", false, true⟩ rfl

/-- C8: a relay SYNC_EVENT or NAVIGATE whose `oderId` equals the local
participant id produces no forwarded effect at all (echo suppression),
while any other `oderId` forwards exactly the APPLY_SYNC / NAVIGATE
notification to all tabs. -/
theorem C8_theorem (st : PopupState) (now : ℚ) (r o : String) (e : SyncEvent)
    (n : NavigationEvent) :
    (o = st.session.oderId →
      (handleServerMessage st (ServerMessage.SYNC_EVENT r o e) now).2 = [] ∧
      (handleServerMessage st (ServerMessage.NAVIGATE r o n) now).2 = []) ∧
    (o ≠ st.session.oderId →
      (handleServerMessage st (ServerMessage.SYNC_EVENT r o e) now).2
        = [Effect.ForwardToAllTabs (TabMsg.APPLY_SYNC e)] ∧
      (handleServerMessage st (ServerMessage.NAVIGATE r o n) now).2
        = [Effect.ForwardToAllTabs (TabMsg.NAVIGATE n)]) := by
  constructor
  · intro h
    constructor <;> (simp only [handleServerMessage]; rw [if_pos h])
  · intro h
    constructor <;> (simp only [handleServerMessage]; rw [if_neg h])

/-- Witness for C8_theorem: the session's own echo produces no effects. -/
theorem C8_witness :
    (handleServerMessage popupSt (ServerMessage.SYNC_EVENT "ROOMCODE" "user_aaaa"
        ⟨"PLAY", 10, 999, none⟩) 0).2 = [] ∧
    (handleServerMessage popupSt (ServerMessage.NAVIGATE "ROOMCODE" "user_aaaa"
        ⟨"https://example.com/w", "youtube", 999⟩) 0).2 = [] :=
  (C8_theorem popupSt 0 "ROOMCODE" "user_aaaa" ⟨"PLAY", 10, 999, none⟩
    ⟨"https://example.com/w", "youtube", 999⟩).1 rfl

/-- C9: every relay ERROR releases the room-operation lock, and a
ROOM_NOT_FOUND code or a message containing "does not exist" additionally
clears the local room state. -/
theorem C9_theorem (st : PopupState) (now : ℚ) (code msg : String) :
    (handleServerMessage st (ServerMessage.ERROR code msg) now).1.pendingOperation
      = none ∧
    (code = "ROOM_NOT_FOUND" ∨ "does not exist".toList <:+: msg.toList →
      (handleServerMessage st (ServerMessage.ERROR code msg) now).1.session.roomId
        = none ∧
      (handleServerMessage st (ServerMessage.ERROR code msg) now).1.session.isHost
        = false ∧
      (handleServerMessage st (ServerMessage.ERROR code msg) now).1.session.userCount
        = 0 ∧
      (handleServerMessage st (ServerMessage.ERROR code msg) now).1.session.users
        = []) := by
  simp only [handleServerMessage]
  split_ifs with h
  · exact ⟨rfl, fun _ => ⟨rfl, rfl, rfl, rfl⟩⟩
  · exact ⟨rfl, fun hc => absurd hc h⟩

/-- Witness for C9_theorem at a ROOM_NOT_FOUND error. -/
theorem C9_witness :
    (handleServerMessage popupSt
        (ServerMessage.ERROR "ROOM_NOT_FOUND" "no room") 0).1.session.roomId = none ∧
    (handleServerMessage popupSt
        (ServerMessage.ERROR "ROOM_NOT_FOUND" "no room") 0).1.session.isHost = false ∧
    (handleServerMessage popupSt
        (ServerMessage.ERROR "ROOM_NOT_FOUND" "no room") 0).1.session.userCount = 0 ∧
    (handleServerMessage popupSt
        (ServerMessage.ERROR "ROOM_NOT_FOUND" "no room") 0).1.session.users = [] :=
  (C9_theorem popupSt 0 "ROOM_NOT_FOUND" "no room").2 (Or.inl rfl)

/-- C10: an ERROR whose code is not ROOM_NOT_FOUND and whose message does
not contain "does not exist" leaves the entire session record unchanged;
the only state change is the cleared operation lock, and the only effect is
the ERROR notification forwarded to tabs. -/
theorem C10_theorem (st : PopupState) (now : ℚ) (code msg : String) :
    code ≠ "ROOM_NOT_FOUND" → ¬("does not exist".toList <:+: msg.toList) →
    (handleServerMessage st (ServerMessage.ERROR code msg) now).1.session
      = st.session ∧
    (handleServerMessage st (ServerMessage.ERROR code msg) now).1.pendingOperation
      = none ∧
    (handleServerMessage st (ServerMessage.ERROR code msg) now).2
      = [Effect.ForwardToAllTabs (TabMsg.ERROR code msg)] := by
  intro h1 h2
  simp only [handleServerMessage]
  rw [if_neg (by rw [not_or]; exact ⟨h1, h2⟩)]
  exact ⟨rfl, rfl, rfl⟩

/-- Witness for C10_theorem at an unrelated error code. -/
theorem C10_witness :
    (handleServerMessage popupSt
        (ServerMessage.ERROR "INVALID_MESSAGE" "bad payload") 0).1.session
      = popupSt.session ∧
    (handleServerMessage popupSt
        (ServerMessage.ERROR "INVALID_MESSAGE" "bad payload") 0).1.pendingOperation
      = none ∧
    (handleServerMessage popupSt
        (ServerMessage.ERROR "INVALID_MESSAGE" "bad payload") 0).2
      = [Effect.ForwardToAllTabs (TabMsg.ERROR "INVALID_MESSAGE" "bad payload")] :=
  C10_theorem popupSt 0 "INVALID_MESSAGE" "bad payload" (by decide) (by decide)

end WatchTogether
